import Mathlib

/-!
# usbxbm device firmware: session/transfer state machine

Shallow embedding of the device-side protocol code of the usbxbm
repository (`main.c` / `display.h`, here `src/unnamed/part_002`) and of
the Nokia 5110 display backend (`src/device/nokia5110.c`).

Modelling choices:
* The global variables `state`, `recv_len`, `recv_cnt` become the fields
  of an explicit `DeviceState` record that is threaded through the two
  V-USB callbacks `usbFunctionSetup` and `usbFunctionWrite`.
* Calls through the `display_t` function-pointer struct are recorded as
  an event trace (`DisplayEvent`): `display.init()`, `display.frame_start()`,
  `display.send_byte(b)`, `display.frame_done()` become trace elements.
* The display properties record is a parameter (`DisplayProps`), since
  exactly one backend is linked per build; the Nokia 5110 instance is
  `nokiaProps`.
* C `uint8_t`/`uint16_t` values are modelled as `Nat`.  No arithmetic in
  the embedded code can wrap for the values the USB setup packet can
  carry (all fields are 16-bit words, and `recv_cnt` is only incremented
  under the guard `recv_cnt < recv_len`), so no explicit modulus is
  needed for faithfulness on the reachable domain.
* `usbFunctionSetup`'s return value is modelled by `SetupResponse`:
  returning a length together with `usbMsgPtr` pointing at a buffer
  becomes `SetupResponse.msg bytes`; returning `USB_NO_MSG` becomes
  `SetupResponse.noMsg`; returning `0` becomes `SetupResponse.empty`.
-/

namespace Usbxbm

/-- `#define CMD_HELLO 0x55` -/
def CMD_HELLO : Nat := 0x55
/-- `#define CMD_PROPS 0x10` -/
def CMD_PROPS : Nat := 0x10
/-- `#define CMD_DATA 0x20` -/
def CMD_DATA : Nat := 0x20
/-- `#define CMD_RESET 0xf0` -/
def CMD_RESET : Nat := 0xf0
/-- `#define CMD_BYE 0xaa` -/
def CMD_BYE : Nat := 0xaa

/-- `#define ST_IDLE 0` -/
def ST_IDLE : Nat := 0
/-- `#define ST_READY 1` -/
def ST_READY : Nat := 1

/-- `#define HELLO_VALUE 0x4d6f` -/
def HELLO_VALUE : Nat := 0x4d6f
/-- `#define HELLO_INDEX 0x6921` -/
def HELLO_INDEX : Nat := 0x6921

/-- `#define VERSION "1.0"` -/
def VERSION : String := "1.0"

/-- `uint8_t banner[] = "RUDY usbxbm " VERSION;` — the C array holds the
string bytes followed by the NUL terminator, and `sizeof(banner)` counts
the terminator, so the full array content is returned to the host. -/
def banner : List Nat := (("RUDY usbxbm " ++ VERSION).toList.map Char.toNat) ++ [0]

/-- The `properties` sub-struct of `display_t` (display.h):
`uint16_t res_x; uint16_t res_y; uint8_t color_bits; char identifier[20];`. -/
structure DisplayProps where
  res_x : Nat
  res_y : Nat
  color_bits : Nat
  identifier : String
deriving DecidableEq

/-- Zero-pad (or truncate) a byte list to exactly `n` bytes, as C's
initialisation of a fixed `char[n]` array from a shorter string literal
zero-fills the remainder. -/
def padTo (n : Nat) (l : List Nat) : List Nat :=
  l.take n ++ List.replicate (n - l.length) 0

/-- The wire image of `display.properties` as sent by
`usbMsgPtr = (uint8_t *) &display.properties; return sizeof(display.properties);`
on the AVR target: little-endian 16-bit words, byte alignment (avr-gcc
inserts no padding in this struct), then the 20-byte identifier array. -/
def propsBytes (p : DisplayProps) : List Nat :=
  [p.res_x % 256, p.res_x / 256 % 256, p.res_y % 256, p.res_y / 256 % 256,
   p.color_bits % 256] ++ padTo 20 (p.identifier.toList.map Char.toNat)

/-- The mutable globals of main.c: `uint8_t state`, `uint16_t recv_len`,
`uint16_t recv_cnt`. -/
structure DeviceState where
  state : Nat
  recv_len : Nat
  recv_cnt : Nat
deriving DecidableEq

/-- Power-up values: `state = ST_IDLE`, the two static counters are
zero-initialised. -/
def initialState : DeviceState := ⟨ST_IDLE, 0, 0⟩

/-- The fields of the 8-byte USB setup packet used by main.c
(`rq->bRequest`, `rq->wValue.word`, `rq->wIndex.word`, `rq->wLength.word`). -/
structure SetupRequest where
  bRequest : Nat
  wValue : Nat
  wIndex : Nat
  wLength : Nat
deriving DecidableEq

/-- One call through the `display_t` function-pointer struct. -/
inductive DisplayEvent where
  | init
  | frame_start
  | send_byte (b : Nat)
  | frame_done
deriving DecidableEq

/-- Result of `usbFunctionSetup`: a message buffer with its length
(`usbMsgPtr`/return value), the `USB_NO_MSG` marker announcing a data
stage, or the empty response `return 0`. -/
inductive SetupResponse where
  | msg (bytes : List Nat)
  | noMsg
  | empty
deriving DecidableEq

/-- Embedding of `usbFunctionSetup` (main.c lines 152–262).  The `switch`
on `rq->bRequest` becomes a chain of `if`s; the returned triple is the
updated globals, the response, and the display calls made (in order). -/
def usbFunctionSetup (dp : DisplayProps) (rq : SetupRequest) (s : DeviceState) :
    DeviceState × SetupResponse × List DisplayEvent :=
  if rq.bRequest = CMD_HELLO then
    if rq.wValue = HELLO_VALUE ∧ rq.wIndex = HELLO_INDEX then
      ({ s with state := ST_READY }, SetupResponse.msg banner,
       if s.state ≠ ST_IDLE then [DisplayEvent.init] else [])
    else
      (s, SetupResponse.empty, [])
  else if rq.bRequest = CMD_PROPS then
    if s.state = ST_READY then
      (s, SetupResponse.msg (propsBytes dp), [])
    else
      (s, SetupResponse.empty, [])
  else if rq.bRequest = CMD_DATA then
    if s.state = ST_READY then
      ({ s with recv_cnt := 0, recv_len := rq.wLength }, SetupResponse.noMsg,
       [DisplayEvent.frame_start])
    else
      (s, SetupResponse.empty, [])
  else if rq.bRequest = CMD_RESET then
    if s.state = ST_READY then
      (s, SetupResponse.empty, [DisplayEvent.init])
    else
      (s, SetupResponse.empty, [])
  else if rq.bRequest = CMD_BYE then
    ({ s with state := ST_IDLE }, SetupResponse.empty, [])
  else
    (s, SetupResponse.empty, [])

/-- The `for (i = 0; recv_cnt < recv_len && i < len; i++, recv_cnt++)`
loop of `usbFunctionWrite`: walks the fragment, emitting a `send_byte`
event and incrementing the counter while `recv_cnt < recv_len`; returns
the events and the final counter. -/
def writeLoop (d : List Nat) (cnt len : Nat) : List DisplayEvent × Nat :=
  match d with
  | [] => ([], cnt)
  | b :: rest =>
    if cnt < len then
      let r := writeLoop rest (cnt + 1) len
      (DisplayEvent.send_byte b :: r.1, r.2)
    else
      ([], cnt)

/-- Embedding of `usbFunctionWrite` (main.c lines 279–302): forward the
fragment through the loop, then `if (recv_cnt == recv_len)` call
`frame_done()`; the returned `Bool` is the C return value
`(recv_cnt == recv_len)` (1 = all data received). -/
def usbFunctionWrite (d : List Nat) (s : DeviceState) :
    DeviceState × List DisplayEvent × Bool :=
  let r := writeLoop d s.recv_cnt s.recv_len
  if r.2 = s.recv_len then
    ({ s with recv_cnt := r.2 }, r.1 ++ [DisplayEvent.frame_done], true)
  else
    ({ s with recv_cnt := r.2 }, r.1, false)

/-- Delivery of a whole chunked data stage: `usbFunctionWrite` is called
once per fragment, in order (V-USB delivers the control-OUT payload in
packets of up to 8 bytes; fragment sizes are arbitrary here).  Returns
the final globals and the concatenated display-event trace. -/
def deliverAll (frags : List (List Nat)) (s : DeviceState) :
    DeviceState × List DisplayEvent :=
  match frags with
  | [] => (s, [])
  | f :: rest =>
    let r := usbFunctionWrite f s
    let r' := deliverAll rest r.1
    (r'.1, r.2.1 ++ r'.2)

/-- One interaction with the device: a control request handled by
`usbFunctionSetup`, or one data-stage fragment handled by
`usbFunctionWrite`. -/
inductive DeviceOp where
  | setup (rq : SetupRequest)
  | write (d : List Nat)

/-- Run one `DeviceOp`, keeping the new globals and the display calls. -/
def runOp (dp : DisplayProps) (op : DeviceOp) (s : DeviceState) :
    DeviceState × List DisplayEvent :=
  match op with
  | DeviceOp.setup rq =>
    let r := usbFunctionSetup dp rq s
    (r.1, r.2.2)
  | DeviceOp.write d =>
    let r := usbFunctionWrite d s
    (r.1, r.2.1)

/-- Run a sequence of `DeviceOp`s from a given state. -/
def runOps (dp : DisplayProps) (ops : List DeviceOp) (s : DeviceState) :
    DeviceState × List DisplayEvent :=
  match ops with
  | [] => (s, [])
  | op :: rest =>
    let r := runOp dp op s
    let r' := runOps dp rest r.1
    (r'.1, r.2 ++ r'.2)

/-- The device state after a command sequence starting at power-up. -/
def stateAfter (dp : DisplayProps) (ops : List DeviceOp) : DeviceState :=
  (runOps dp ops initialState).1

/-- A HELLO request carrying the given magic pair. -/
def helloReq (a b : Nat) : SetupRequest := ⟨CMD_HELLO, a, b, 0⟩

/-- A PROPS request (its wValue/wIndex/wLength are ignored by the code). -/
def propsReq : SetupRequest := ⟨CMD_PROPS, 0, 0, 0⟩

/-- A DATA request declaring `l` payload bytes in `wLength`. -/
def dataReq (l : Nat) : SetupRequest := ⟨CMD_DATA, 0, 0, l⟩

/-- A RESET request. -/
def resetReq : SetupRequest := ⟨CMD_RESET, 0, 0, 0⟩

/-- A BYE request. -/
def byeReq : SetupRequest := ⟨CMD_BYE, 0, 0, 0⟩

/-- The spec-side session predicate: `true` iff the most recent HELLO
carrying the matching magic pair has not been followed by a BYE.
Folded left over the command sequence: a matching HELLO raises the flag,
a BYE clears it, every other interaction leaves it. -/
def helloUpd (b : Bool) (op : DeviceOp) : Bool :=
  match op with
  | DeviceOp.setup rq =>
    if rq.bRequest = CMD_HELLO ∧ rq.wValue = HELLO_VALUE ∧ rq.wIndex = HELLO_INDEX then
      true
    else if rq.bRequest = CMD_BYE then
      false
    else
      b
  | DeviceOp.write _ => b

/-- `helloLive ops` holds iff the most recent matching HELLO in `ops`
has not been followed by a BYE (and at least one matching HELLO exists). -/
def helloLive (ops : List DeviceOp) : Bool := ops.foldl helloUpd false

end Usbxbm

namespace Nokia5110

/-- `#define X_RES 84` (nokia5110.c) -/
def X_RES : Nat := 84
/-- `#define Y_RES 48` (nokia5110.c) -/
def Y_RES : Nat := 48

/-- Observable SPI-bus/pin activity of the Nokia 5110 backend: reset pin
edges, chip-select edges (`spi_cs_low`/`spi_cs_high`), data/command pin
edges (`spi_dc_low`/`spi_dc_high`), and bytes clocked out over SPI. -/
inductive SpiEvent where
  | rstLow
  | rstHigh
  | csLow
  | csHigh
  | dcLow
  | dcHigh
  | byte (b : Nat)
deriving DecidableEq

/-- Bus/pin trace of `nokia5110_init` (nokia5110.c lines 143–173),
parametrised by the splash image `nokia_gfx_nokia_splash` (its defining
header is not part of the sources; only its bytes read at indices
`0 ≤ i < X_RES * (Y_RES / 8)` matter).  `port_setup()` and `spi_init()`
only configure data-direction and SPI-control registers and produce no
bus activity, so they contribute no events. -/
def nokia5110_init (splash : Nat → Nat) : List SpiEvent :=
  [SpiEvent.rstLow, SpiEvent.rstHigh,
   SpiEvent.csLow, SpiEvent.dcLow,
   SpiEvent.byte 0x21, SpiEvent.byte 0xc8, SpiEvent.byte 0x06,
   SpiEvent.byte 0x12, SpiEvent.byte 0x20, SpiEvent.byte 0x08,
   SpiEvent.byte 0x0c,
   SpiEvent.byte 0x80, SpiEvent.byte 0x40, SpiEvent.dcHigh] ++
  (List.range (X_RES * (Y_RES / 8))).map (fun i => SpiEvent.byte (splash i)) ++
  [SpiEvent.csHigh]

/-- Bus/pin trace of `nokia5110_frame_start` (nokia5110.c lines 178–186):
enable SPI, command mode, set X and Y addresses to 0, data mode. -/
def nokia5110_frame_start : List SpiEvent :=
  [SpiEvent.csLow, SpiEvent.dcLow, SpiEvent.byte 0x80, SpiEvent.byte 0x40,
   SpiEvent.dcHigh]

/-- Bus/pin trace of `nokia5110_frame_done` (nokia5110.c lines 191–195):
disable SPI (chip select high). -/
def nokia5110_frame_done : List SpiEvent := [SpiEvent.csHigh]

/-- Bus trace of `spi_send_byte`, the backend's `send_byte` callback. -/
def nokia_send_byte (b : Nat) : List SpiEvent := [SpiEvent.byte b]

/-- The `display` struct's `properties` field for the Nokia 5110 build
(nokia5110.c lines 198–210). -/
def nokiaProps : Usbxbm.DisplayProps :=
  { res_x := X_RES, res_y := Y_RES, color_bits := 1, identifier := "Nokia 5110" }

end Nokia5110

namespace Usbxbm

/-- A representative Ready-state configuration (as reached right after a
successful HELLO from power-up). -/
def readyState : DeviceState := ⟨ST_READY, 0, 0⟩

/-- Recognise a `send_byte` display call in an event trace. -/
def isSendByte : DisplayEvent → Bool
  | DisplayEvent.send_byte _ => true
  | _ => false

/- ### Helper lemmas about the receive loop and chunked delivery -/

/-- When the transfer counter has already reached the expected length,
the receive loop does nothing. -/
theorem writeLoop_of_not_lt (d : List Nat) (cnt len : Nat) (h : ¬ cnt < len) :
    writeLoop d cnt len = ([], cnt) := by
  cases d <;> simp [writeLoop, h]

/-- Closed form of the receive loop: it forwards exactly the first
`len - cnt` bytes of the fragment and advances the counter to
`min len (cnt + |d|)`. -/
theorem writeLoop_eq (d : List Nat) (cnt len : Nat) (h : cnt ≤ len) :
    writeLoop d cnt len
      = ((d.take (len - cnt)).map DisplayEvent.send_byte, min len (cnt + d.length)) := by
  induction d generalizing cnt with
  | nil =>
    simp [writeLoop, Nat.min_eq_right h]
  | cons b rest ih =>
    by_cases hlt : cnt < len
    · have hsub : len - cnt = (len - (cnt + 1)) + 1 := by omega
      rw [writeLoop]
      simp only [hlt, if_true]
      rw [ih (cnt + 1) hlt, hsub]
      simp [List.take_succ_cons]
      omega
    · have hcnt : cnt = len := by omega
      rw [writeLoop]
      simp only [hlt, if_false]
      subst hcnt
      simp

/-- A fragment that fits strictly below the expected length is forwarded
whole, with no `frame_done` and "need more data" reported. -/
theorem usbFunctionWrite_partial (d : List Nat) (s : DeviceState)
    (h : s.recv_cnt + d.length < s.recv_len) :
    usbFunctionWrite d s
      = ({ s with recv_cnt := s.recv_cnt + d.length },
         d.map DisplayEvent.send_byte, false) := by
  have hle : s.recv_cnt ≤ s.recv_len := by omega
  have hdl : d.length ≤ s.recv_len - s.recv_cnt := by omega
  rw [usbFunctionWrite, writeLoop_eq d s.recv_cnt s.recv_len hle]
  simp only [List.take_of_length_le hdl]
  have hmin : min s.recv_len (s.recv_cnt + d.length) = s.recv_cnt + d.length := by omega
  rw [hmin]
  simp only [if_neg (by omega : ¬ s.recv_cnt + d.length = s.recv_len)]

/-- A fragment that completes the declared length exactly is forwarded
whole, followed by exactly one `frame_done`, with "all data received"
reported. -/
theorem usbFunctionWrite_completes (d : List Nat) (s : DeviceState)
    (h : s.recv_cnt + d.length = s.recv_len) :
    usbFunctionWrite d s
      = ({ s with recv_cnt := s.recv_len },
         d.map DisplayEvent.send_byte ++ [DisplayEvent.frame_done], true) := by
  have hle : s.recv_cnt ≤ s.recv_len := by omega
  have hdl : d.length ≤ s.recv_len - s.recv_cnt := by omega
  rw [usbFunctionWrite, writeLoop_eq d s.recv_cnt s.recv_len hle]
  simp only [List.take_of_length_le hdl]
  have hmin : min s.recv_len (s.recv_cnt + d.length) = s.recv_len := by omega
  rw [hmin]
  simp

/-- Delivering fragments whose total stays strictly below the expected
length forwards every byte in order and never emits `frame_done`. -/
theorem deliverAll_incomplete (frags : List (List Nat)) (s : DeviceState)
    (h : s.recv_cnt + (frags.map List.length).sum < s.recv_len) :
    deliverAll frags s
      = ({ s with recv_cnt := s.recv_cnt + (frags.map List.length).sum },
         frags.flatten.map DisplayEvent.send_byte) := by
  induction frags generalizing s with
  | nil => simp [deliverAll]
  | cons f rest ih =>
    have hf : s.recv_cnt + f.length < s.recv_len := by
      simp only [List.map_cons, List.sum_cons] at h
      omega
    rw [deliverAll, usbFunctionWrite_partial f s hf]
    have hrest : ({ s with recv_cnt := s.recv_cnt + f.length } : DeviceState).recv_cnt
        + (rest.map List.length).sum
        < ({ s with recv_cnt := s.recv_cnt + f.length } : DeviceState).recv_len := by
      simp only [List.map_cons, List.sum_cons] at h
      simp only []
      omega
    rw [ih _ hrest]
    simp [Nat.add_assoc]

/-- Delivering nonempty fragments whose total reaches the expected
length exactly forwards every byte in order and then emits exactly one
`frame_done`, after the last byte. -/
theorem deliverAll_exact (frags : List (List Nat)) (s : DeviceState)
    (hne : frags ≠ []) (hall : ∀ f ∈ frags, f ≠ [])
    (h : s.recv_cnt + (frags.map List.length).sum = s.recv_len) :
    deliverAll frags s
      = ({ s with recv_cnt := s.recv_len },
         frags.flatten.map DisplayEvent.send_byte ++ [DisplayEvent.frame_done]) := by
  induction frags generalizing s with
  | nil => exact absurd rfl hne
  | cons f rest ih =>
    cases rest with
    | nil =>
      have hf : s.recv_cnt + f.length = s.recv_len := by
        simp only [List.map_cons, List.sum_cons, List.map_nil, List.sum_nil] at h
        omega
      rw [deliverAll, usbFunctionWrite_completes f s hf]
      simp [deliverAll]
    | cons g rest' =>
      have hg : g ≠ [] := hall g (by simp)
      have hglen : 1 ≤ g.length := by
        cases g with
        | nil => exact absurd rfl hg
        | cons x xs => simp
      have hf : s.recv_cnt + f.length < s.recv_len := by
        simp only [List.map_cons, List.sum_cons] at h
        omega
      rw [deliverAll, usbFunctionWrite_partial f s hf]
      have hrest : ({ s with recv_cnt := s.recv_cnt + f.length } : DeviceState).recv_cnt
          + ((g :: rest').map List.length).sum
          = ({ s with recv_cnt := s.recv_cnt + f.length } : DeviceState).recv_len := by
        simp only [List.map_cons, List.sum_cons] at h ⊢
        omega
      rw [ih _ (by simp) (fun x hx => hall x (by simp [hx])) hrest]
      simp only [List.flatten_cons, List.map_append, List.append_assoc]

/-- Forwarded bytes are exactly the `send_byte` events of a trace. -/
theorem countP_isSendByte_map (l : List Nat) :
    (l.map DisplayEvent.send_byte).countP isSendByte = l.length := by
  induction l with
  | nil => rfl
  | cons b rest ih => simp [List.countP_cons, isSendByte, ih]

/-- One interaction changes "device is Ready" exactly the way `helloUpd`
changes the spec-side session flag: a matching HELLO sets it, BYE clears
it, and no other interaction touches it. -/
theorem runOp_state (dp : DisplayProps) (op : DeviceOp) (s : DeviceState) (b : Bool)
    (h : s.state = ST_READY ↔ b = true) :
    (runOp dp op s).1.state = ST_READY ↔ helloUpd b op = true := by
  cases op with
  | write d =>
    have hst : (usbFunctionWrite d s).1.state = s.state := by
      rw [usbFunctionWrite]
      split <;> rfl
    simpa [runOp, helloUpd, hst] using h
  | setup rq =>
    simp only [runOp, usbFunctionSetup, helloUpd]
    split_ifs with h1 h2 h3 h4 h5 h6 h7 h8 h9 h10 h11 h12 <;>
      simp_all [CMD_HELLO, CMD_PROPS, CMD_DATA, CMD_RESET, CMD_BYE, ST_IDLE, ST_READY]

/-- Running interactions from a state whose Readiness matches the flag
`b` ends Ready exactly when folding `helloUpd` from `b` ends `true`. -/
theorem runOps_state (dp : DisplayProps) (ops : List DeviceOp) :
    ∀ (s : DeviceState) (b : Bool), (s.state = ST_READY ↔ b = true) →
      ((runOps dp ops s).1.state = ST_READY ↔ List.foldl helloUpd b ops = true) := by
  induction ops with
  | nil => intro s b h; simpa [runOps] using h
  | cons op rest ih =>
    intro s b h
    simp only [runOps, List.foldl_cons]
    exact ih (runOp dp op s).1 (helloUpd b op) (runOp_state dp op s b h)

/-- Folding the session flag over interactions that contain no matching
HELLO never raises it. -/
theorem foldl_helloUpd_no_hello (suffix : List DeviceOp)
    (h : ∀ rq, DeviceOp.setup rq ∈ suffix →
      ¬(rq.bRequest = CMD_HELLO ∧ rq.wValue = HELLO_VALUE ∧ rq.wIndex = HELLO_INDEX)) :
    List.foldl helloUpd false suffix = false := by
  induction suffix with
  | nil => rfl
  | cons op rest ih =>
    have hop : helloUpd false op = false := by
      cases op with
      | write d => rfl
      | setup rq =>
        have := h rq (by simp)
        simp only [helloUpd]
        split_ifs <;> simp_all
    rw [List.foldl_cons, hop]
    exact ih (fun rq hrq => h rq (by simp [hrq]))

/-- Closed form of one data-stage callback: forward the first
`recv_len - recv_cnt` bytes, advance the counter, and fire `frame_done`
exactly when the counter reaches the expected length. -/
theorem usbFunctionWrite_eq (d : List Nat) (s : DeviceState)
    (h : s.recv_cnt ≤ s.recv_len) :
    usbFunctionWrite d s
      = ({ s with recv_cnt := min s.recv_len (s.recv_cnt + d.length) },
         ((d.take (s.recv_len - s.recv_cnt)).map DisplayEvent.send_byte)
           ++ (if min s.recv_len (s.recv_cnt + d.length) = s.recv_len
               then [DisplayEvent.frame_done] else []),
         decide (min s.recv_len (s.recv_cnt + d.length) = s.recv_len)) := by
  rw [usbFunctionWrite, writeLoop_eq d s.recv_cnt s.recv_len h]
  by_cases hm : min s.recv_len (s.recv_cnt + d.length) = s.recv_len <;> simp [hm]

/-- A data-stage callback arriving when the transfer is already complete
forwards nothing, leaves the counter as it is, and fires `frame_done`
(again). -/
theorem usbFunctionWrite_of_complete (d : List Nat) (s : DeviceState)
    (h : s.recv_cnt = s.recv_len) :
    usbFunctionWrite d s = (s, [DisplayEvent.frame_done], true) := by
  rcases s with ⟨st, rl, rc⟩
  simp only at h
  subst h
  have hw : writeLoop d rc rc = ([], rc) := writeLoop_of_not_lt d _ _ (by omega)
  rw [usbFunctionWrite]
  simp [hw]

/-- Evaluation of a PROPS request: the properties record in Ready, the
empty response otherwise. -/
theorem props_setup (dp : DisplayProps) (s : DeviceState) :
    usbFunctionSetup dp propsReq s
      = if s.state = ST_READY then (s, SetupResponse.msg (propsBytes dp), [])
        else (s, SetupResponse.empty, []) := by
  simp [usbFunctionSetup, propsReq, CMD_HELLO, CMD_PROPS]

/-- Evaluation of a DATA request: reset the transfer progress and start
a frame in Ready, the empty response otherwise. -/
theorem data_setup (dp : DisplayProps) (s : DeviceState) (l : Nat) :
    usbFunctionSetup dp (dataReq l) s
      = if s.state = ST_READY then
          ({ s with recv_cnt := 0, recv_len := l }, SetupResponse.noMsg,
           [DisplayEvent.frame_start])
        else (s, SetupResponse.empty, []) := by
  simp [usbFunctionSetup, dataReq, CMD_HELLO, CMD_PROPS, CMD_DATA]

/-- One interaction preserves `recv_cnt ≤ recv_len`. -/
theorem runOp_inv (dp : DisplayProps) (op : DeviceOp) (s : DeviceState)
    (h : s.recv_cnt ≤ s.recv_len) :
    (runOp dp op s).1.recv_cnt ≤ (runOp dp op s).1.recv_len := by
  cases op with
  | write d =>
    simp only [runOp]
    rw [usbFunctionWrite_eq d s h]
    simp
  | setup rq =>
    simp only [runOp, usbFunctionSetup]
    split_ifs <;> simp_all

/-- Any interaction sequence preserves `recv_cnt ≤ recv_len`. -/
theorem runOps_inv (dp : DisplayProps) (ops : List DeviceOp) :
    ∀ s : DeviceState, s.recv_cnt ≤ s.recv_len →
      (runOps dp ops s).1.recv_cnt ≤ (runOps dp ops s).1.recv_len := by
  induction ops with
  | nil => intro s h; simpa [runOps] using h
  | cons op rest ih =>
    intro s h
    simp only [runOps]
    exact ih _ (runOp_inv dp op s h)

/- ### Claim theorems -/

/-- **C1**: for every interaction sequence from the initial Idle state,
a PROPS request succeeds (returns the properties record) iff the most
recent matching HELLO has not been followed by a BYE (`helloLive`); when
it has been (in particular right after any BYE, and until the next
matching HELLO — third conjunct), PROPS and DATA get the empty
response and change nothing. -/
theorem c1_props_iff_session (dp : DisplayProps) (ops : List DeviceOp) :
    ((usbFunctionSetup dp propsReq (stateAfter dp ops)).2.1
        = SetupResponse.msg (propsBytes dp) ↔ helloLive ops = true)
    ∧ (helloLive ops = false →
        usbFunctionSetup dp propsReq (stateAfter dp ops)
          = (stateAfter dp ops, SetupResponse.empty, [])
        ∧ ∀ l, usbFunctionSetup dp (dataReq l) (stateAfter dp ops)
            = (stateAfter dp ops, SetupResponse.empty, []))
    ∧ (∀ suffix : List DeviceOp,
        (∀ rq, DeviceOp.setup rq ∈ suffix →
          ¬(rq.bRequest = CMD_HELLO ∧ rq.wValue = HELLO_VALUE ∧
            rq.wIndex = HELLO_INDEX)) →
        helloLive (ops ++ DeviceOp.setup byeReq :: suffix) = false) := by
  have hkey : (stateAfter dp ops).state = ST_READY ↔ helloLive ops = true :=
    runOps_state dp ops initialState false (by simp [initialState, ST_IDLE, ST_READY])
  refine ⟨?_, ?_, ?_⟩
  · rw [props_setup]
    by_cases hst : (stateAfter dp ops).state = ST_READY
    · simp only [if_pos hst]
      simpa using hkey.mp hst
    · simp only [if_neg hst]
      constructor
      · intro hmsg
        exact absurd hmsg (by simp)
      · intro hl
        exact absurd (hkey.mpr hl) hst
  · intro hl
    have hst : ¬ (stateAfter dp ops).state = ST_READY := by
      intro hst
      rw [hkey.mp hst] at hl
      exact Bool.noConfusion hl
    exact ⟨by rw [props_setup, if_neg hst],
           fun l => by rw [data_setup, if_neg hst]⟩
  · intro suffix hsuf
    unfold helloLive
    rw [List.foldl_append, List.foldl_cons]
    have hbye : helloUpd (List.foldl helloUpd false ops) (DeviceOp.setup byeReq)
        = false := by
      simp [helloUpd, byeReq, CMD_HELLO, CMD_BYE]
    rw [hbye]
    exact foldl_helloUpd_no_hello suffix hsuf

/-- Witness for C1: after HELLO followed by BYE the session is down and
PROPS gets the empty response without a state change. -/
theorem c1_witness :
    helloLive [DeviceOp.setup (helloReq HELLO_VALUE HELLO_INDEX),
               DeviceOp.setup byeReq] = false
    ∧ usbFunctionSetup Nokia5110.nokiaProps propsReq
          (stateAfter Nokia5110.nokiaProps
            [DeviceOp.setup (helloReq HELLO_VALUE HELLO_INDEX),
             DeviceOp.setup byeReq])
        = (stateAfter Nokia5110.nokiaProps
            [DeviceOp.setup (helloReq HELLO_VALUE HELLO_INDEX),
             DeviceOp.setup byeReq], SetupResponse.empty, []) :=
  ⟨by decide,
   ((c1_props_iff_session Nokia5110.nokiaProps
       [DeviceOp.setup (helloReq HELLO_VALUE HELLO_INDEX),
        DeviceOp.setup byeReq]).2.1 (by decide)).1⟩

/-- **C2** (amended): a `Data(l)` accepted in Ready resets the transfer
progress and starts a frame; delivering exactly `l` bytes in nonempty
fragments, *provided `l ≥ 1`*, forwards every byte in delivery order
with `frame_done` exactly once after the last byte; delivering fewer
than `l` bytes forwards them in order and never fires `frame_done`.
(For `l = 0` the only fragmentation into pieces of size ≥ 1 is the
empty one, so no callback runs and `frame_done` is not fired — see the
counterexample.) -/
theorem c2_data_delivery (dp : DisplayProps) (s : DeviceState) (l : Nat)
    (frags : List (List Nat)) (hs : s.state = ST_READY)
    (hall : ∀ f ∈ frags, f ≠ []) :
    usbFunctionSetup dp (dataReq l) s
      = ({ s with recv_cnt := 0, recv_len := l }, SetupResponse.noMsg,
         [DisplayEvent.frame_start])
    ∧ ((frags.map List.length).sum = l → 1 ≤ l →
        (deliverAll frags { s with recv_cnt := 0, recv_len := l }).2
          = frags.flatten.map DisplayEvent.send_byte ++ [DisplayEvent.frame_done]
        ∧ (frags.flatten.map DisplayEvent.send_byte).length = l)
    ∧ ((frags.map List.length).sum < l →
        (deliverAll frags { s with recv_cnt := 0, recv_len := l }).2
          = frags.flatten.map DisplayEvent.send_byte) := by
  refine ⟨by rw [data_setup, if_pos hs], ?_, ?_⟩
  · intro hsum hl
    have hne : frags ≠ [] := by
      intro hnil
      subst hnil
      simp at hsum
      omega
    have hx := deliverAll_exact frags { s with recv_cnt := 0, recv_len := l }
      hne hall (by simpa using hsum)
    rw [hx]
    refine ⟨rfl, ?_⟩
    rw [List.length_map, List.length_flatten, hsum]
  · intro hsum
    have hx := deliverAll_incomplete frags { s with recv_cnt := 0, recv_len := l }
      (by simpa using hsum)
    rw [hx]

/-- Counterexample to C2 as originally stated: for `Data(0)` the only
split of the payload into fragments of size ≥ 1 is the empty fragment
list, under which no data callback runs, so `frame_done` is fired zero
times rather than exactly once. -/
theorem c2_counterexample :
    usbFunctionSetup Nokia5110.nokiaProps (dataReq 0) readyState
      = ({ readyState with recv_cnt := 0, recv_len := 0 }, SetupResponse.noMsg,
         [DisplayEvent.frame_start])
    ∧ (deliverAll [] { readyState with recv_cnt := 0, recv_len := 0 }).2.count
        DisplayEvent.frame_done = 0 := by
  decide

/-- Witness for C2: `Data(3)` followed by fragments `[10,20]`, `[30]`
forwards the three bytes in order and ends with one `frame_done`. -/
theorem c2_witness :
    readyState.state = ST_READY
    ∧ (deliverAll [[10, 20], [30]] { readyState with recv_cnt := 0, recv_len := 3 }).2
        = ([[10, 20], [30]] : List (List Nat)).flatten.map DisplayEvent.send_byte
            ++ [DisplayEvent.frame_done] :=
  ⟨rfl,
   ((c2_data_delivery Nokia5110.nokiaProps readyState 3 [[10, 20], [30]] rfl
       (by decide)).2.1 (by decide) (by decide)).1⟩

/-- **C3**: `Hello(a, b)` goes to Ready and answers the full banner
(the bytes of `"RUDY usbxbm 1.0"` plus the NUL terminator, 16 bytes in
all) exactly when `a = 0x4d6f` and `b = 0x6921`; any other magic pair
leaves the whole device state unchanged with the empty response. -/
theorem c3_hello_iff (dp : DisplayProps) (a b : Nat) (s : DeviceState) :
    (a = HELLO_VALUE ∧ b = HELLO_INDEX →
      usbFunctionSetup dp (helloReq a b) s
        = ({ s with state := ST_READY }, SetupResponse.msg banner,
           if s.state ≠ ST_IDLE then [DisplayEvent.init] else [])
      ∧ banner = ("RUDY usbxbm 1.0".toList.map Char.toNat) ++ [0]
      ∧ banner.length = 16)
    ∧ (¬(a = HELLO_VALUE ∧ b = HELLO_INDEX) →
      usbFunctionSetup dp (helloReq a b) s = (s, SetupResponse.empty, [])) := by
  constructor
  · rintro ⟨ha, hb⟩
    subst ha
    subst hb
    exact ⟨by simp [usbFunctionSetup, helloReq], by decide, by decide⟩
  · intro hmm
    simp [usbFunctionSetup, helloReq, hmm]

/-- Witness for C3: the matching pair yields Ready plus the banner from
power-up; the pair `(0, 0)` is silently rejected. -/
theorem c3_witness :
    (usbFunctionSetup Nokia5110.nokiaProps (helloReq HELLO_VALUE HELLO_INDEX)
        initialState
      = ({ initialState with state := ST_READY }, SetupResponse.msg banner, []))
    ∧ ¬((0 : Nat) = HELLO_VALUE ∧ (0 : Nat) = HELLO_INDEX)
    ∧ usbFunctionSetup Nokia5110.nokiaProps (helloReq 0 0) initialState
        = (initialState, SetupResponse.empty, []) := by
  refine ⟨?_, by decide, ?_⟩
  · have h := ((c3_hello_iff Nokia5110.nokiaProps HELLO_VALUE HELLO_INDEX
        initialState).1 ⟨rfl, rfl⟩).1
    exact h.trans (by decide)
  · exact (c3_hello_iff Nokia5110.nokiaProps 0 0 initialState).2 (by decide)

/-- **C4**: `recv_cnt ≤ recv_len` holds after every interaction
sequence from power-up; within one fragment, only the first
`recv_len - recv_cnt` bytes produce `send_byte` calls and counter
increments (the rest are ignored), and a completed transfer accepts no
further bytes: no `send_byte` and no state change without a new DATA. -/
theorem c4_progress_invariant (dp : DisplayProps) :
    (∀ ops : List DeviceOp,
      (stateAfter dp ops).recv_cnt ≤ (stateAfter dp ops).recv_len)
    ∧ (∀ (s : DeviceState) (d : List Nat), s.recv_cnt ≤ s.recv_len →
        (usbFunctionWrite d s).2.1.countP isSendByte
            = min (s.recv_len - s.recv_cnt) d.length
        ∧ (usbFunctionWrite d s).1.recv_cnt
            = min s.recv_len (s.recv_cnt + d.length)
        ∧ (s.recv_cnt = s.recv_len →
            (usbFunctionWrite d s).2.1.countP isSendByte = 0
            ∧ (usbFunctionWrite d s).1 = s)) := by
  constructor
  · intro ops
    exact runOps_inv dp ops initialState (by simp [initialState])
  · intro s d h
    refine ⟨?_, ?_, ?_⟩
    · rw [usbFunctionWrite_eq d s h]
      simp only [List.countP_append, countP_isSendByte_map, List.length_take]
      split <;> simp [isSendByte]
    · rw [usbFunctionWrite_eq d s h]
    · intro h2
      rw [usbFunctionWrite_of_complete d s h2]
      exact ⟨by simp [isSendByte], rfl⟩

/-- Witness for C4: the invariant after a short interaction sequence,
and fragment truncation at a concrete over-delivering fragment. -/
theorem c4_witness :
    (stateAfter Nokia5110.nokiaProps
        [DeviceOp.setup (helloReq HELLO_VALUE HELLO_INDEX),
         DeviceOp.setup (dataReq 2), DeviceOp.write [7, 8, 9]]).recv_cnt
      ≤ (stateAfter Nokia5110.nokiaProps
          [DeviceOp.setup (helloReq HELLO_VALUE HELLO_INDEX),
           DeviceOp.setup (dataReq 2), DeviceOp.write [7, 8, 9]]).recv_len
    ∧ (usbFunctionWrite [7, 8, 9] ⟨ST_READY, 2, 1⟩).2.1.countP isSendByte
        = min ((⟨ST_READY, 2, 1⟩ : DeviceState).recv_len
            - (⟨ST_READY, 2, 1⟩ : DeviceState).recv_cnt) [7, 8, 9].length :=
  ⟨(c4_progress_invariant Nokia5110.nokiaProps).1
     [DeviceOp.setup (helloReq HELLO_VALUE HELLO_INDEX),
      DeviceOp.setup (dataReq 2), DeviceOp.write [7, 8, 9]],
   ((c4_progress_invariant Nokia5110.nokiaProps).2 ⟨ST_READY, 2, 1⟩ [7, 8, 9]
      (by decide)).1⟩

/-- **C5**: `Data(0)` accepted in Ready fires `frame_start`, and the
first data-stage callback (with any fragment, in particular the empty
one) fires `frame_done` with zero `send_byte` calls, reporting the
transfer complete. -/
theorem c5_data_zero (dp : DisplayProps) (s : DeviceState)
    (h : s.state = ST_READY) :
    usbFunctionSetup dp (dataReq 0) s
      = ({ s with recv_cnt := 0, recv_len := 0 }, SetupResponse.noMsg,
         [DisplayEvent.frame_start])
    ∧ ∀ d : List Nat,
        usbFunctionWrite d { s with recv_cnt := 0, recv_len := 0 }
          = ({ s with recv_cnt := 0, recv_len := 0 },
             [DisplayEvent.frame_done], true) :=
  ⟨by rw [data_setup, if_pos h],
   fun d => usbFunctionWrite_of_complete d _ rfl⟩

/-- Witness for C5 at the canonical Ready state with an empty first
fragment. -/
theorem c5_witness :
    readyState.state = ST_READY
    ∧ usbFunctionSetup Nokia5110.nokiaProps (dataReq 0) readyState
        = ({ readyState with recv_cnt := 0, recv_len := 0 },
           SetupResponse.noMsg, [DisplayEvent.frame_start])
    ∧ usbFunctionWrite [] { readyState with recv_cnt := 0, recv_len := 0 }
        = ({ readyState with recv_cnt := 0, recv_len := 0 },
           [DisplayEvent.frame_done], true) :=
  ⟨rfl, (c5_data_zero Nokia5110.nokiaProps readyState rfl).1,
   (c5_data_zero Nokia5110.nokiaProps readyState rfl).2 []⟩

/-- **C6**: a matching HELLO in a non-Idle state re-runs the display's
`init()` before acknowledging with the banner, while a matching HELLO
from Idle runs no display call at all; and for the Nokia 5110 backend
`init()` is observable as a chip-select bracket (`csLow` … `csHigh`,
the latter being exactly the `frame_done` trace) around a fresh
full-frame write of `X_RES * (Y_RES / 8) = 504` bytes. -/
theorem c6_hello_reinit (dp : DisplayProps) (s : DeviceState) :
    (s.state ≠ ST_IDLE →
      usbFunctionSetup dp (helloReq HELLO_VALUE HELLO_INDEX) s
        = ({ s with state := ST_READY }, SetupResponse.msg banner,
           [DisplayEvent.init]))
    ∧ (s.state = ST_IDLE →
      usbFunctionSetup dp (helloReq HELLO_VALUE HELLO_INDEX) s
        = ({ s with state := ST_READY }, SetupResponse.msg banner, []))
    ∧ (∀ splash : Nat → Nat, ∃ pre : List Nokia5110.SpiEvent,
        Nokia5110.nokia5110_init splash
          = pre ++ (List.range (Nokia5110.X_RES * (Nokia5110.Y_RES / 8))).map
                (fun i => Nokia5110.SpiEvent.byte (splash i))
              ++ Nokia5110.nokia5110_frame_done
        ∧ Nokia5110.SpiEvent.csLow ∈ pre
        ∧ Nokia5110.X_RES * (Nokia5110.Y_RES / 8) = 504) := by
  refine ⟨?_, ?_, ?_⟩
  · intro h
    simp [usbFunctionSetup, helloReq, h]
  · intro h
    simp [usbFunctionSetup, helloReq, h]
  · intro splash
    exact ⟨[Nokia5110.SpiEvent.rstLow, Nokia5110.SpiEvent.rstHigh,
            Nokia5110.SpiEvent.csLow, Nokia5110.SpiEvent.dcLow,
            Nokia5110.SpiEvent.byte 0x21, Nokia5110.SpiEvent.byte 0xc8,
            Nokia5110.SpiEvent.byte 0x06, Nokia5110.SpiEvent.byte 0x12,
            Nokia5110.SpiEvent.byte 0x20, Nokia5110.SpiEvent.byte 0x08,
            Nokia5110.SpiEvent.byte 0x0c, Nokia5110.SpiEvent.byte 0x80,
            Nokia5110.SpiEvent.byte 0x40, Nokia5110.SpiEvent.dcHigh],
          rfl, by simp, by decide⟩

/-- Witness for C6: HELLO while Ready emits `init`, HELLO from power-up
emits nothing. -/
theorem c6_witness :
    readyState.state ≠ ST_IDLE
    ∧ usbFunctionSetup Nokia5110.nokiaProps (helloReq HELLO_VALUE HELLO_INDEX)
          readyState
        = ({ readyState with state := ST_READY }, SetupResponse.msg banner,
           [DisplayEvent.init])
    ∧ initialState.state = ST_IDLE
    ∧ usbFunctionSetup Nokia5110.nokiaProps (helloReq HELLO_VALUE HELLO_INDEX)
          initialState
        = ({ initialState with state := ST_READY }, SetupResponse.msg banner, []) :=
  ⟨by decide,
   (c6_hello_reinit Nokia5110.nokiaProps readyState).1 (by decide),
   rfl,
   (c6_hello_reinit Nokia5110.nokiaProps initialState).2.1 rfl⟩

/-- **C7**: in Ready, PROPS answers the fixed-layout properties record;
for the Nokia 5110 build its wire image is width 84, height 48, one
color bit, and the 20-byte identifier `"Nokia 5110"` zero-padded —
25 bytes in all. -/
theorem c7_props_record (s : DeviceState) (h : s.state = ST_READY) :
    usbFunctionSetup Nokia5110.nokiaProps propsReq s
      = (s, SetupResponse.msg (propsBytes Nokia5110.nokiaProps), [])
    ∧ propsBytes Nokia5110.nokiaProps
        = [84, 0, 48, 0, 1]
            ++ (("Nokia 5110".toList.map Char.toNat) ++ List.replicate 10 0)
    ∧ (propsBytes Nokia5110.nokiaProps).length = 25 :=
  ⟨by rw [props_setup, if_pos h], by decide, by decide⟩

/-- Witness for C7 at the canonical Ready state. -/
theorem c7_witness :
    readyState.state = ST_READY
    ∧ usbFunctionSetup Nokia5110.nokiaProps propsReq readyState
        = (readyState, SetupResponse.msg (propsBytes Nokia5110.nokiaProps), []) :=
  ⟨rfl, (c7_props_record readyState rfl).1⟩

/-- **C8**: a new `Data(l)` accepted while the previous transfer is
incomplete simply overwrites the transfer progress with
`{expected_length := l, received_count := 0}` and fires `frame_start`
for the new transfer; the step fires no `frame_done` for the abandoned
transfer. -/
theorem c8_data_supersede (dp : DisplayProps) (s : DeviceState) (l : Nat)
    (h : s.state = ST_READY) (hinc : s.recv_cnt < s.recv_len) :
    usbFunctionSetup dp (dataReq l) s
      = ({ s with recv_cnt := 0, recv_len := l }, SetupResponse.noMsg,
         [DisplayEvent.frame_start])
    ∧ (usbFunctionSetup dp (dataReq l) s).2.2.count DisplayEvent.frame_done = 0 := by
  refine ⟨by rw [data_setup, if_pos h], ?_⟩
  rw [data_setup, if_pos h]
  rfl

/-- Witness for C8: a Ready state two bytes into a five-byte transfer,
superseded by `Data(7)`. -/
theorem c8_witness :
    (⟨ST_READY, 5, 2⟩ : DeviceState).state = ST_READY
    ∧ (⟨ST_READY, 5, 2⟩ : DeviceState).recv_cnt
        < (⟨ST_READY, 5, 2⟩ : DeviceState).recv_len
    ∧ usbFunctionSetup Nokia5110.nokiaProps (dataReq 7) ⟨ST_READY, 5, 2⟩
        = (⟨ST_READY, 7, 0⟩, SetupResponse.noMsg, [DisplayEvent.frame_start]) :=
  ⟨rfl, by decide,
   (c8_data_supersede Nokia5110.nokiaProps ⟨ST_READY, 5, 2⟩ 7 rfl (by decide)).1⟩

/-- **C9**: RESET in Ready re-runs the display's `init()` and leaves
the whole device state (session state and transfer progress) unchanged,
with the empty response; RESET outside Ready is a pure no-op with the
empty response. -/
theorem c9_reset (dp : DisplayProps) (s : DeviceState) :
    (s.state = ST_READY →
      usbFunctionSetup dp resetReq s = (s, SetupResponse.empty, [DisplayEvent.init]))
    ∧ (s.state ≠ ST_READY →
      usbFunctionSetup dp resetReq s = (s, SetupResponse.empty, [])) := by
  constructor <;> intro h <;>
    simp [usbFunctionSetup, resetReq, CMD_HELLO, CMD_PROPS, CMD_DATA, CMD_RESET, h]

/-- Witness for C9: RESET in Ready re-inits, RESET in Idle does
nothing. -/
theorem c9_witness :
    readyState.state = ST_READY
    ∧ usbFunctionSetup Nokia5110.nokiaProps resetReq readyState
        = (readyState, SetupResponse.empty, [DisplayEvent.init])
    ∧ initialState.state ≠ ST_READY
    ∧ usbFunctionSetup Nokia5110.nokiaProps resetReq initialState
        = (initialState, SetupResponse.empty, []) :=
  ⟨rfl, (c9_reset Nokia5110.nokiaProps readyState).1 rfl,
   by decide, (c9_reset Nokia5110.nokiaProps initialState).2 (by decide)⟩

/-- **C10**: a data-stage callback arriving when the transfer is already
complete (`recv_cnt = recv_len`) forwards no byte and leaves the state
unchanged, but fires `frame_done` again on every such call and reports
"transfer complete" — the `frame_done` call is not guarded to fire only
once. -/
theorem c10_write_after_complete (s : DeviceState) (d : List Nat)
    (h : s.recv_cnt = s.recv_len) :
    usbFunctionWrite d s = (s, [DisplayEvent.frame_done], true) :=
  usbFunctionWrite_of_complete d s h

/-- Witness for C10: an extra three-byte fragment after a completed
two-byte transfer fires `frame_done` once more and changes nothing. -/
theorem c10_witness :
    (⟨ST_READY, 2, 2⟩ : DeviceState).recv_cnt
        = (⟨ST_READY, 2, 2⟩ : DeviceState).recv_len
    ∧ usbFunctionWrite [1, 2, 3] ⟨ST_READY, 2, 2⟩
        = (⟨ST_READY, 2, 2⟩, [DisplayEvent.frame_done], true) :=
  ⟨rfl, c10_write_after_complete ⟨ST_READY, 2, 2⟩ [1, 2, 3] rfl⟩

end Usbxbm
